import Mathlib

/-!
Verification of the game-state interpretation and reminder decision engine of a
StarCraft II screen-capture assistant.

The development shallowly embeds the two core Python modules:

* `OCR_Analysis.py` — text parsing (`extract_numbers`, the ratio and timer
  parsers), the per-instance reading cache `last_known_state`, the derived
  warning predicates, and the snapshot synthesizer `get_game_state`.
* `ReminderEngine.py` — the cooldown table (`_can_send_reminder`), the emission
  primitive (`_send_notification`), and the per-category checks
  (`check_supply`, `check_resources`, `check_upgrade_timing`,
  `check_amon_attack_wave`, `get_commander_tip`, `process_game_state`).

External collaborators are modelled at the boundary the source itself uses:
images are represented by the OCR text the collaborator would return for them
(`Option String`, with `none` for an absent capture), wall-clock instants
(`time.time()`) are explicit rational arguments, `datetime.now().isoformat()`
is an explicit string argument, and the desktop-notification collaborator's
outcome is an explicit `NotifyResult` argument (the source catches its
exceptions and ignores its result).
-/

/-! ## OCR analysis: data model -/

/-- The reading cache `self.last_known_state` of `OCRAnalysis`: last
successfully parsed value per quantity. -/
structure OCRState where
  minerals : Nat
  gas : Nat
  supply_used : Nat
  supply_cap : Nat
  game_time : String
  deriving DecidableEq, Repr

/-- The initial cache contents set in `OCRAnalysis.__init__`.  Note that
`supply_cap` starts at `0` there (not `200`). -/
def init_last_known_state : OCRState :=
  { minerals := 0, gas := 0, supply_used := 0, supply_cap := 0, game_time := "00:00" }

/-! ## OCR analysis: text parsing -/

/-- Accumulator-style scan over the characters of a text, collecting the values
of the maximal digit runs, exactly as `re.findall` of one-or-more digits
followed by `int` conversion does in `extract_numbers`. -/
def extract_numbers_aux : List Char → Option Nat → List Nat
  | [], none => []
  | [], some n => [n]
  | c :: cs, acc =>
    if c.isDigit then
      extract_numbers_aux cs (some ((acc.getD 0) * 10 + (c.toNat - 48)))
    else
      match acc with
      | none => extract_numbers_aux cs none
      | some n => n :: extract_numbers_aux cs none

/-- `OCRAnalysis.extract_numbers`: the integer values of the maximal digit runs
of the text, in order of appearance. -/
def extract_numbers (text : String) : List Nat :=
  extract_numbers_aux text.toList none

/-- The spec's `parse_pair` contract: the first two digit runs of the text, or
absent when fewer than two exist.  This is the success condition of
`analyze_resources`. -/
def parse_pair (text : String) : Option (Nat × Nat) :=
  match extract_numbers text with
  | n0 :: n1 :: _ => some (n0, n1)
  | _ => none

/-- Value of a list of digit characters read in base 10. -/
def digits_val (cs : List Char) : Nat :=
  cs.foldl (fun a c => a * 10 + (c.toNat - 48)) 0

/-- Python `int(''.join(filter(str.isdigit, s)))`: strip the non-digit
characters and convert; the conversion raises (here: `none`) when no digit
remains. -/
def parse_digits (cs : List Char) : Option Nat :=
  let ds := cs.filter Char.isDigit
  if ds.isEmpty then none else some (digits_val ds)

/-- Splitting helper mirroring Python `str.split(sep)` for a one-character
separator (keeps empty segments, n+1 segments for n separators). -/
def split_on_char_aux (sep : Char) : List Char → List Char → List (List Char)
  | [], acc => [acc.reverse]
  | c :: cs, acc =>
    if c = sep then acc.reverse :: split_on_char_aux sep cs []
    else split_on_char_aux sep cs (c :: acc)

/-- Python `str.split(sep)` for a one-character separator. -/
def split_on_char (sep : Char) (cs : List Char) : List (List Char) :=
  split_on_char_aux sep cs []

/-- The ratio parse inside `analyze_supply`: requires a `/` in the text,
exactly two `/`-separated segments, and at least one digit in each segment
after stripping non-digits; otherwise absent. -/
def parse_ratio (text : String) : Option (Nat × Nat) :=
  let cs := text.toList
  if cs.contains '/' then
    match split_on_char '/' cs with
    | [p0, p1] =>
      match parse_digits p0, parse_digits p1 with
      | some u, some c => some (u, c)
      | _, _ => none
    | _ => none
  else none

/-- One attempt of the regex `\d{1,2}:\d{2}` at the current position: greedily
try two leading digits, then backtrack to one. -/
def try_timer_match : List Char → Option String
  | a :: b :: c :: d :: e :: _ =>
    if a.isDigit ∧ b.isDigit ∧ c = ':' ∧ d.isDigit ∧ e.isDigit then
      some (String.mk [a, b, c, d, e])
    else if a.isDigit ∧ b = ':' ∧ c.isDigit ∧ d.isDigit then
      some (String.mk [a, b, c, d])
    else none
  | [a, b, c, d] =>
    if a.isDigit ∧ b = ':' ∧ c.isDigit ∧ d.isDigit then
      some (String.mk [a, b, c, d])
    else none
  | _ => none

/-- Leftmost match of `\d{1,2}:\d{2}` (Python `re.search` semantics). -/
def find_timer : List Char → Option String
  | [] => none
  | c :: cs =>
    match try_timer_match (c :: cs) with
    | some m => some m
    | none => find_timer cs

/-- The timer parse inside `analyze_game_time`: the first `\d{1,2}:\d{2}`
match of the text, kept in display form. -/
def parse_timer (text : String) : Option String :=
  find_timer text.toList

/-! ## OCR analysis: per-region analyzers (cache update on success) -/

/-- `OCRAnalysis.analyze_resources`, with the image replaced by the OCR text
the collaborator returns for it.  Returns the (minerals, gas) reading and the
updated cache. -/
def analyze_resources (st : OCRState) (text : String) : (Nat × Nat) × OCRState :=
  match extract_numbers text with
  | n0 :: n1 :: _ => ((n0, n1), { st with minerals := n0, gas := n1 })
  | _ => ((st.minerals, st.gas), st)

/-- `OCRAnalysis.analyze_supply`: parse `used/cap`, falling back to the cached
values when the parse fails. -/
def analyze_supply (st : OCRState) (text : String) : (Nat × Nat) × OCRState :=
  match parse_ratio text with
  | some (u, c) => ((u, c), { st with supply_used := u, supply_cap := c })
  | none => ((st.supply_used, st.supply_cap), st)

/-- `OCRAnalysis.analyze_game_time`: first `MM:SS` match, falling back to the
cached display string when absent. -/
def analyze_game_time (st : OCRState) (text : String) : String × OCRState :=
  match parse_timer text with
  | some gt => (gt, { st with game_time := gt })
  | none => (st.game_time, st)

/-! ## OCR analysis: derived warnings and the snapshot synthesizer -/

/-- `OCRAnalysis.detect_supply_block`: supply ratio at or above the threshold;
a zero cap is never blocked. -/
def detect_supply_block (supply_used supply_cap : Nat) (threshold : ℚ) : Bool :=
  if supply_cap = 0 then false
  else decide (threshold ≤ (supply_used : ℚ) / (supply_cap : ℚ))

/-- `OCRAnalysis.detect_resource_overflow`: names of the resources strictly
above the threshold, minerals first. -/
def detect_resource_overflow (minerals gas threshold : Nat) : List String :=
  (if threshold < minerals then ["minerals"] else [])
    ++ (if threshold < gas then ["gas"] else [])

/-- One synthesized game-state snapshot, as assembled by `get_game_state`. -/
structure GameState where
  minerals : Nat
  gas : Nat
  supply_used : Nat
  supply_cap : Nat
  game_time : String
  warnings : List String
  deriving DecidableEq, Repr

/-- `OCRAnalysis.get_game_state`: each region's image argument is modelled by
the OCR text it would yield (`none` = capture absent, the region is skipped and
the hard-coded baseline of the local `state` dict is kept). -/
def get_game_state (st : OCRState) (resource_txt supply_txt timer_txt : Option String) :
    GameState × OCRState :=
  let r : (Nat × Nat) × OCRState :=
    match resource_txt with
    | none => ((0, 0), st)
    | some txt => analyze_resources st txt
  let s : (Nat × Nat) × OCRState :=
    match supply_txt with
    | none => ((0, 200), r.2)
    | some txt => analyze_supply r.2 txt
  let g : String × OCRState :=
    match timer_txt with
    | none => ("00:00", s.2)
    | some txt => analyze_game_time s.2 txt
  let warn_supply : List String :=
    if detect_supply_block s.1.1 s.1.2 (9 / 10) then ["supply_block"] else []
  let overflow := detect_resource_overflow r.1.1 r.1.2 1000
  (⟨r.1.1, r.1.2, s.1.1, s.1.2, g.1,
    warn_supply ++ overflow.map (fun res => res ++ "_overflow")⟩, g.2)

/-- Sanity checks of the extractor embedding against the concrete cases the
behaviour is documented with: digit runs, well-formed and malformed ratios,
and the leftmost timer match. -/
lemma extractor_ground_cases :
    extract_numbers "a12 b345c" = [12, 345]
    ∧ parse_ratio "190/200" = some (190, 200)
    ∧ parse_ratio "abc" = none
    ∧ parse_ratio "1/2/3" = none
    ∧ parse_timer "08:30 remaining" = some "08:30" := by
  refine ⟨?_, ?_, ?_, ?_, ?_⟩ <;> decide

/-! ## Reminder engine: data model -/

/-- Outcome of the desktop-notification collaborator (`plyer.notification`):
the source catches any exception it raises and ignores its result. -/
inductive NotifyResult where
  | success
  | failure
  deriving DecidableEq, Repr

/-- One record of `self.reminder_history`. -/
structure HistoryEntry where
  timestamp : String
  type : String
  message : String
  urgency : String
  deriving DecidableEq, Repr

/-- The `self.config` dictionary set in `ReminderEngine.__init__`. -/
structure Config where
  supply_warning_threshold : ℚ
  supply_critical_threshold : ℚ
  resource_overflow_threshold : Nat
  worker_ideal_early : Nat
  worker_ideal_mid : Nat
  worker_ideal_late : Nat
  upgrade_reminder_interval : Nat
  amon_attack_wave_intervals : List Int
  deriving DecidableEq, Repr

/-- The configuration values hard-coded in `ReminderEngine.__init__`. -/
def default_config : Config :=
  { supply_warning_threshold := 85 / 100
    supply_critical_threshold := 95 / 100
    resource_overflow_threshold := 1000
    worker_ideal_early := 16
    worker_ideal_mid := 22
    worker_ideal_late := 24
    upgrade_reminder_interval := 120
    amon_attack_wave_intervals := [240, 480, 720, 960] }

/-- Mutable state of a `ReminderEngine` instance.  `cooldowns` is the Python
dict mapping reminder type to the `time.time()` of its last firing, modelled
as an association list with Python-dict update semantics; wall-clock instants
are rationals. -/
structure Engine where
  enable_notifications : Bool
  reminder_history : List HistoryEntry
  cooldowns : List (String × ℚ)
  default_cooldown : ℚ
  config : Config
  deriving DecidableEq, Repr

/-- `ReminderEngine.__init__`: empty history, empty cooldown table, 30-second
default cooldown, default configuration. -/
def initEngine (enable : Bool) : Engine :=
  { enable_notifications := enable
    reminder_history := []
    cooldowns := []
    default_cooldown := 30
    config := default_config }

/-- Python dict read `cooldowns[key]` guarded by `key in cooldowns`. -/
def lookupCooldown (cds : List (String × ℚ)) (k : String) : Option ℚ :=
  (cds.find? (fun p => p.1 == k)).map Prod.snd

/-- Python dict write `cooldowns[key] = t`: overwrite in place, or append. -/
def setCooldown : List (String × ℚ) → String → ℚ → List (String × ℚ)
  | [], k, t => [(k, t)]
  | (k0, t0) :: rest, k, t =>
    if k0 = k then (k, t) :: rest else (k0, t0) :: setCooldown rest k t

/-! ## Reminder engine: cooldown gate and emission primitive -/

/-- `ReminderEngine._can_send_reminder`, with the `time.time()` instant passed
explicitly.  Returns whether the reminder may fire, together with the updated
engine (the cooldown timestamp is refreshed exactly on a `true` answer). -/
def can_send_reminder (e : Engine) (reminder_type : String) (now : ℚ) : Bool × Engine :=
  match lookupCooldown e.cooldowns reminder_type with
  | some last_time =>
    if now - last_time < e.default_cooldown then (false, e)
    else (true, { e with cooldowns := setCooldown e.cooldowns reminder_type now })
  | none => (true, { e with cooldowns := setCooldown e.cooldowns reminder_type now })

/-- `ReminderEngine._send_notification`, with the `datetime.now().isoformat()`
timestamp and the collaborator outcome passed explicitly.  When notifications
are disabled the method returns immediately; otherwise the collaborator is
invoked (its exception, if any, is caught and logged) and the record is
appended to history regardless of `nres`. -/
def send_notification (e : Engine) (title message urgency : String)
    (nres : NotifyResult) (ts : String) : Engine :=
  if e.enable_notifications = false then e
  else
    { e with reminder_history :=
        e.reminder_history ++ [{ timestamp := ts, type := title,
                                 message := message, urgency := urgency }] }

/-! ## Reminder engine: per-category checks -/

/-- Optional dict fields of the `supply_data` argument of `check_supply`. -/
structure SupplyData where
  supply_used : Option Nat
  supply_cap : Option Nat
  deriving DecidableEq, Repr

/-- Optional dict fields of the `resource_data` argument of `check_resources`. -/
structure ResourceData where
  minerals : Option Nat
  gas : Option Nat
  deriving DecidableEq, Repr

/-- `ReminderEngine.check_supply`: critical tier at the critical threshold,
warning tier otherwise at the warning threshold; a zero cap returns at once. -/
def check_supply (e : Engine) (supply_data : SupplyData) (now : ℚ) (ts : String)
    (nres : NotifyResult) : Option String × Engine :=
  let supply_used := supply_data.supply_used.getD 0
  let supply_cap := supply_data.supply_cap.getD 200
  if supply_cap = 0 then (none, e)
  else
    let ratio : ℚ := (supply_used : ℚ) / (supply_cap : ℚ)
    if e.config.supply_critical_threshold ≤ ratio then
      match can_send_reminder e "supply_critical" now with
      | (true, e1) =>
        let message := "⚠️ SUPPLY BLOCKED! " ++ toString supply_used ++ "/"
          ++ toString supply_cap
        (some message, send_notification e1 "Supply Critical" message "critical" nres ts)
      | (false, e1) => (none, e1)
    else if e.config.supply_warning_threshold ≤ ratio then
      match can_send_reminder e "supply_warning" now with
      | (true, e1) =>
        let message := "⚠️ Supply Warning: " ++ toString supply_used ++ "/"
          ++ toString supply_cap
        (some message, send_notification e1 "Build Supply" message "normal" nres ts)
      | (false, e1) => (none, e1)
    else (none, e)

/-- `ReminderEngine.check_resources`: no reminders before 180 seconds of game
time; past that, minerals and gas each fire their own overflow advisory under
their own cooldown key. -/
def check_resources (e : Engine) (resource_data : ResourceData)
    (game_time_seconds : Int) (now : ℚ) (ts : String) (nres : NotifyResult) :
    List String × Engine :=
  let minerals := resource_data.minerals.getD 0
  let gas := resource_data.gas.getD 0
  if game_time_seconds < 180 then ([], e)
  else
    let threshold := e.config.resource_overflow_threshold
    let step_min : List String × Engine :=
      if threshold < minerals then
        match can_send_reminder e "mineral_overflow" now with
        | (true, e1) =>
          let message := "💎 High minerals: " ++ toString minerals
            ++ " - Expand or build army!"
          ([message], send_notification e1 "Resource Alert" message "normal" nres ts)
        | (false, e1) => ([], e1)
      else ([], e)
    let step_gas : List String × Engine :=
      if threshold < gas then
        match can_send_reminder step_min.2 "gas_overflow" now with
        | (true, e1) =>
          let message := "⛽ High gas: " ++ toString gas
            ++ " - Tech up or build advanced units!"
          ([message], send_notification e1 "Resource Alert" message "normal" nres ts)
        | (false, e1) => ([], e1)
      else ([], step_min.2)
    (step_min.1 ++ step_gas.1, step_gas.2)

/-- The `upgrade_timings` table local to `check_upgrade_timing`, in insertion
(ascending) order. -/
def upgrade_timings : List (Int × String) :=
  [(300, "Consider starting +1 attack/armor upgrades"),
   (480, "Time for +2 upgrades if +1 is done"),
   (720, "Consider +3 upgrades if +2 is complete")]

/-- The scan loop of `check_upgrade_timing`: fire the first threshold whose
time has passed and whose cooldown permits, then `break`. -/
def upgradeLoop (t : Int) (now : ℚ) (ts : String) (nres : NotifyResult) :
    Engine → List (Int × String) → List String × Engine
  | e, [] => ([], e)
  | e, (timing, message) :: rest =>
    if timing ≤ t then
      match can_send_reminder e ("upgrade_" ++ toString timing) now with
      | (true, e1) =>
        ([message], send_notification e1 "Upgrade Reminder" ("⬆️ " ++ message)
          "normal" nres ts)
      | (false, e1) => upgradeLoop t now ts nres e1 rest
    else upgradeLoop t now ts nres e rest

/-- `ReminderEngine.check_upgrade_timing` (the `current_upgrades` argument is
taken but never read by the source). -/
def check_upgrade_timing (e : Engine) (game_time_seconds : Int)
    (current_upgrades : List (String × Nat)) (now : ℚ) (ts : String)
    (nres : NotifyResult) : List String × Engine :=
  upgradeLoop game_time_seconds now ts nres e upgrade_timings

/-- The dict returned by `check_amon_attack_wave` on a firing. -/
structure WaveInfo where
  wave_number : Nat
  time_until : Int
  message : String
  deriving DecidableEq, Repr

/-- The enumeration loop of `check_amon_attack_wave`: warn for the first wave
whose arrival lies within the next 30 seconds (inclusive) and whose per-wave
cooldown key permits. -/
def amonLoop (t : Int) (now : ℚ) (ts : String) (nres : NotifyResult) :
    Engine → Nat → List Int → Option WaveInfo × Engine
  | e, _, [] => (none, e)
  | e, i, wave_time :: rest =>
    let time_until := wave_time - t
    if 0 < time_until ∧ time_until ≤ 30 then
      match can_send_reminder e ("amon_wave_" ++ toString i) now with
      | (true, e1) =>
        let message := "🚨 Attack wave incoming in " ++ toString time_until ++ "s!"
        (some { wave_number := i + 1, time_until := time_until, message := message },
         send_notification e1 "Amon Attack Warning" message "critical" nres ts)
      | (false, e1) => amonLoop t now ts nres e1 (i + 1) rest
    else amonLoop t now ts nres e (i + 1) rest

/-- `ReminderEngine.check_amon_attack_wave` (the `mission_type` argument is
taken but never read by the source). -/
def check_amon_attack_wave (e : Engine) (game_time_seconds : Int)
    (mission_type : String) (now : ℚ) (ts : String) (nres : NotifyResult) :
    Option WaveInfo × Engine :=
  amonLoop game_time_seconds now ts nres e 0 e.config.amon_attack_wave_intervals

/-- The hard-coded `tips` dictionary of `get_commander_tip`, as a lookup by
commander name and phase. -/
def commander_tips (commander_name game_phase : String) : Option String :=
  if commander_name = "Raynor" then
    if game_phase = "early" then
      some "Focus on orbital command calldowns for early aggression"
    else if game_phase = "mid" then
      some "Build bio ball with medics for sustained push"
    else if game_phase = "late" then
      some "Use battlecruiser calldowns on key targets"
    else none
  else if commander_name = "Kerrigan" then
    if game_phase = "early" then
      some "Level up Kerrigan quickly with early assaults"
    else if game_phase = "mid" then
      some "Unlock Ultralisk and Omega Worm abilities"
    else if game_phase = "late" then
      some "Use Kerrigan's abilities to eliminate high-value targets"
    else none
  else none

/-- `ReminderEngine.get_commander_tip`: look up the tip by (name, phase) and
fire it under a cooldown keyed by phase only.  The `prestige` argument is
taken but never read by the source. -/
def get_commander_tip (e : Engine) (commander_name : String) (prestige : Int)
    (game_phase : String) (now : ℚ) (ts : String) (nres : NotifyResult) :
    Option String × Engine :=
  match commander_tips commander_name game_phase with
  | some tip =>
    match can_send_reminder e ("commander_tip_" ++ game_phase) now with
    | (true, e1) =>
      (some tip, send_notification e1 (commander_name ++ " Tip") ("💡 " ++ tip)
        "normal" nres ts)
    | (false, e1) => (none, e1)
  | none => (none, e)

/-! ## Reminder engine: full cycle -/

/-- Optional dict fields of the `game_state` argument of `process_game_state`. -/
structure GameStateInput where
  resources : Option ResourceData
  supply : Option SupplyData
  game_time : Option String
  mode : Option String
  deriving DecidableEq, Repr

/-- The categorized reminders dict returned by `process_game_state`. -/
structure Reminders where
  supply : List String
  resources : List String
  workers : List String
  upgrades : List String
  attacks : List String
  tips : List String
  deriving DecidableEq, Repr

/-- Python `int(s)` on a stripped string: optional sign followed by one or
more digits (underscored literals are not modelled). -/
def pyInt? (cs0 : List Char) : Option Int :=
  let cs := ((cs0.dropWhile Char.isWhitespace).reverse.dropWhile Char.isWhitespace).reverse
  match cs with
  | [] => none
  | c :: rest =>
    if c = '-' then
      if rest ≠ [] ∧ rest.all Char.isDigit then some (-(digits_val rest : Int)) else none
    else if c = '+' then
      if rest ≠ [] ∧ rest.all Char.isDigit then some ((digits_val rest : Int)) else none
    else if (c :: rest).all Char.isDigit then some ((digits_val (c :: rest) : Int))
    else none

/-- The game-time conversion of `process_game_state`: split on `:` into
exactly minutes and seconds, integer-parse both, fall back to `0` on any
failure. -/
def parse_game_time_seconds (s : String) : Int :=
  match split_on_char ':' s.toList with
  | [m, sec] =>
    match pyInt? m, pyInt? sec with
    | some minutes, some seconds => minutes * 60 + seconds
    | _, _ => 0
  | _ => 0

/-- `ReminderEngine.process_game_state`: run the supply, resource and upgrade
checks on every cycle, and the Amon wave check only in co-op mode. -/
def process_game_state (e : Engine) (game_state : GameStateInput) (now : ℚ)
    (ts : String) (nres : NotifyResult) : Reminders × Engine :=
  let game_time_seconds := parse_game_time_seconds (game_state.game_time.getD "00:00")
  let s := check_supply e (game_state.supply.getD { supply_used := none, supply_cap := none })
    now ts nres
  let r := check_resources s.2
    (game_state.resources.getD { minerals := none, gas := none })
    game_time_seconds now ts nres
  let u := check_upgrade_timing r.2 game_time_seconds [] now ts nres
  let a : List String × Engine :=
    if game_state.mode = some "coop" then
      match check_amon_attack_wave u.2 game_time_seconds "standard" now ts nres with
      | (some wave_info, e1) => ([wave_info.message], e1)
      | (none, e1) => ([], e1)
    else ([], u.2)
  ({ supply := match s.1 with | some m => [m] | none => []
     resources := r.1
     workers := []
     upgrades := u.1
     attacks := a.1
     tips := [] }, a.2)

/-- The shared firing pattern of every `check_*` method and the only way an
advisory is emitted in the source: guard by `_can_send_reminder`, then invoke
the emission primitive `_send_notification`. -/
def attempt_fire (e : Engine) (key title message urgency : String) (now : ℚ)
    (ts : String) (nres : NotifyResult) : Engine :=
  match can_send_reminder e key now with
  | (true, e1) => send_notification e1 title message urgency nres ts
  | (false, e1) => e1

/-- A sequence of firing attempts of the same advisory, at the given
`time.time()` instants in order. -/
def run_attempts (key title message urgency : String) (ts : String)
    (nres : NotifyResult) : Engine → List ℚ → Engine
  | e, [] => e
  | e, now :: rest =>
    run_attempts key title message urgency ts nres
      (attempt_fire e key title message urgency now ts nres) rest

/-- Sanity check of the game-time conversion on the documented case. -/
lemma parse_game_time_seconds_ground_case : parse_game_time_seconds "08:30" = 510 := by
  decide

/-! ## Helper lemmas: cooldown table -/

lemma lookup_set_self (cds : List (String × ℚ)) (k : String) (t : ℚ) :
    lookupCooldown (setCooldown cds k t) k = some t := by
  induction cds with
  | nil => simp [setCooldown, lookupCooldown, List.find?]
  | cons hd tl ih =>
    obtain ⟨k0, t0⟩ := hd
    by_cases h : k0 = k
    · subst h
      simp [setCooldown, lookupCooldown, List.find?]
    · simpa [setCooldown, lookupCooldown, List.find?, h] using ih

lemma lookup_set_other (cds : List (String × ℚ)) (k k2 : String) (t : ℚ)
    (h : k2 ≠ k) :
    lookupCooldown (setCooldown cds k t) k2 = lookupCooldown cds k2 := by
  have hkk : (k == k2) = false := by
    simp [beq_iff_eq]
    intro hh
    exact h hh.symm
  induction cds with
  | nil => simp [setCooldown, lookupCooldown, List.find?, hkk]
  | cons hd tl ih =>
    obtain ⟨k0, t0⟩ := hd
    by_cases hk : k0 = k
    · subst hk
      simp [setCooldown, lookupCooldown, List.find?, hkk]
    · by_cases hk2 : k0 = k2
      · subst hk2
        simp [setCooldown, lookupCooldown, List.find?, hk]
      · have hne : (k0 == k2) = false := by simp [beq_iff_eq, hk2]
        simpa [setCooldown, lookupCooldown, List.find?, hk, hne] using ih

lemma can_send_eq_false {e e1 : Engine} {k : String} {now : ℚ}
    (h : can_send_reminder e k now = (false, e1)) : e1 = e := by
  unfold can_send_reminder at h
  rcases hl : lookupCooldown e.cooldowns k with _ | last <;> rw [hl] at h
  · exact Bool.noConfusion (congrArg Prod.fst h)
  · replace h : (if now - last < e.default_cooldown then ((false : Bool), e)
        else (true, { e with cooldowns := setCooldown e.cooldowns k now }))
        = (false, e1) := h
    split at h
    · exact (congrArg Prod.snd h).symm
    · exact Bool.noConfusion (congrArg Prod.fst h)

lemma can_send_eq_true {e e1 : Engine} {k : String} {now : ℚ}
    (h : can_send_reminder e k now = (true, e1)) :
    e1 = { e with cooldowns := setCooldown e.cooldowns k now } := by
  unfold can_send_reminder at h
  rcases hl : lookupCooldown e.cooldowns k with _ | last <;> rw [hl] at h
  · exact (congrArg Prod.snd h).symm
  · replace h : (if now - last < e.default_cooldown then ((false : Bool), e)
        else (true, { e with cooldowns := setCooldown e.cooldowns k now }))
        = (true, e1) := h
    split at h
    · exact Bool.noConfusion (congrArg Prod.fst h)
    · exact (congrArg Prod.snd h).symm

lemma can_send_fst_congr {e1 e2 : Engine} (k : String) (now : ℚ)
    (hlk : lookupCooldown e1.cooldowns k = lookupCooldown e2.cooldowns k)
    (hdc : e1.default_cooldown = e2.default_cooldown) :
    (can_send_reminder e1 k now).1 = (can_send_reminder e2 k now).1 := by
  unfold can_send_reminder
  rw [hlk, hdc]
  rcases lookupCooldown e2.cooldowns k with _ | last
  · rfl
  · by_cases hc : now - last < e2.default_cooldown <;> simp [hc]

/-! ## Helper lemmas: emission primitive -/

lemma send_notification_cooldowns (e : Engine) (title message urgency : String)
    (nres : NotifyResult) (ts : String) :
    (send_notification e title message urgency nres ts).cooldowns = e.cooldowns := by
  unfold send_notification
  split <;> rfl

lemma send_notification_default_cooldown (e : Engine) (title message urgency : String)
    (nres : NotifyResult) (ts : String) :
    (send_notification e title message urgency nres ts).default_cooldown
      = e.default_cooldown := by
  unfold send_notification
  split <;> rfl

lemma send_notification_enable (e : Engine) (title message urgency : String)
    (nres : NotifyResult) (ts : String) :
    (send_notification e title message urgency nres ts).enable_notifications
      = e.enable_notifications := by
  unfold send_notification
  split <;> rfl

lemma send_notification_enabled_history (e : Engine) (title message urgency : String)
    (nres : NotifyResult) (ts : String) (hen : e.enable_notifications = true) :
    (send_notification e title message urgency nres ts).reminder_history
      = e.reminder_history
        ++ [{ timestamp := ts, type := title, message := message, urgency := urgency }] := by
  unfold send_notification
  rw [if_neg (by simp [hen])]

/-! ## Helper lemmas: failed extractions -/

lemma analyze_resources_fail (st : OCRState) (text : String)
    (h : (extract_numbers text).length < 2) :
    analyze_resources st text = ((st.minerals, st.gas), st) := by
  rcases hl : extract_numbers text with _ | ⟨a, _ | ⟨b, l⟩⟩
  · simp [analyze_resources, hl]
  · simp [analyze_resources, hl]
  · rw [hl] at h
    simp at h
    omega

lemma analyze_supply_fail (st : OCRState) (text : String)
    (h : parse_ratio text = none) :
    analyze_supply st text = ((st.supply_used, st.supply_cap), st) := by
  simp [analyze_supply, h]

lemma analyze_game_time_fail (st : OCRState) (text : String)
    (h : parse_timer text = none) :
    analyze_game_time st text = (st.game_time, st) := by
  simp [analyze_game_time, h]

/-! ## Claim C1 -/

/-- A populated reading cache used to exhibit the C1 counterexample. -/
def c1_cache : OCRState :=
  { minerals := 500, gas := 300, supply_used := 10, supply_cap := 20, game_time := "01:00" }

/-- C1 counterexample: with the reading cache holding minerals=500 and the
resource capture absent (image argument `None`), the snapshot reports the
baseline 0 for minerals, not the cached 500 that the claim's cache-fallback
would require. -/
theorem c1_counterexample :
    ((get_game_state c1_cache none none none).1.minerals = 0)
    ∧ c1_cache.minerals = 500
    ∧ (0 : Nat) ≠ 500 :=
  ⟨rfl, rfl, by decide⟩

/-- C1 (amended): when the capture collaborator returns absent for a region
(image argument `None`), `get_game_state` skips that region and the snapshot
carries the hard-coded baseline for that region's fields (minerals=0, gas=0,
supply_used=0, supply_cap=200, game_time="00:00") regardless of the reading
cache, whose contents are neither consulted nor modified for the skipped
region. -/
theorem c1_absent_region_baseline (st : OCRState) (o1 o2 : Option String) :
    ((get_game_state st none o1 o2).1.minerals = 0
      ∧ (get_game_state st none o1 o2).1.gas = 0)
    ∧ ((get_game_state st o1 none o2).1.supply_used = 0
      ∧ (get_game_state st o1 none o2).1.supply_cap = 200)
    ∧ (get_game_state st o1 o2 none).1.game_time = "00:00"
    ∧ (get_game_state st none none none).2 = st := by
  refine ⟨⟨?_, ?_⟩, ⟨?_, ?_⟩, ?_, ?_⟩ <;> simp [get_game_state]

/-! ## Claim C3 -/

/-- C3 counterexample: with notifications disabled, a firing that reaches the
emission primitive appends nothing to the reminder history, contradicting the
claim that the append is unconditional "regardless of whether the
notification collaborator succeeds, raises, or is disabled". -/
theorem c3_counterexample :
    (send_notification (initEngine false) "Supply Critical" "msg" "critical"
        NotifyResult.success "ts").reminder_history.length
      ≠ (initEngine false).reminder_history.length + 1 := by
  decide

/-- C3 (amended): when notifications are enabled, every firing appends exactly
one record (timestamp, type, message, urgency) to the reminder history, and
the notification collaborator's outcome (success or caught exception) has no
influence on the resulting engine; when notifications are disabled the
emission primitive returns early and appends nothing. -/
theorem c3_emission_history (e : Engine) (title message urgency ts : String) :
    (∀ n1 n2 : NotifyResult,
      send_notification e title message urgency n1 ts
        = send_notification e title message urgency n2 ts)
    ∧ (e.enable_notifications = true → ∀ nres : NotifyResult,
        (send_notification e title message urgency nres ts).reminder_history
          = e.reminder_history
            ++ [{ timestamp := ts, type := title, message := message,
                  urgency := urgency }])
    ∧ (e.enable_notifications = false → ∀ nres : NotifyResult,
        send_notification e title message urgency nres ts = e) := by
  refine ⟨fun n1 n2 => rfl,
    fun hen nres => send_notification_enabled_history _ _ _ _ _ _ hen,
    fun hdis nres => ?_⟩
  unfold send_notification
  rw [if_pos hdis]

theorem c3_witness :
    (initEngine true).enable_notifications = true
    ∧ (send_notification (initEngine true) "Supply Critical" "msg" "critical"
        NotifyResult.failure "ts").reminder_history
      = (initEngine true).reminder_history
        ++ [{ timestamp := "ts", type := "Supply Critical", message := "msg",
              urgency := "critical" }] :=
  ⟨rfl, (c3_emission_history (initEngine true) "Supply Critical" "msg"
    "critical" "ts").2.1 rfl NotifyResult.failure⟩

/-! ## Claim C4 -/

/-- C4 counterexample: a freshly constructed analyzer whose supply extraction
fails (text "abc" has no ratio) reports supply_cap=0 — the cache's actual
initial value — not the documented baseline 200 the claim requires. -/
theorem c4_counterexample :
    ((get_game_state init_last_known_state none (some "abc") none).1.supply_cap = 0)
    ∧ (0 : Nat) ≠ 200 :=
  ⟨rfl, by decide⟩

/-- C4 (amended): for every region whose extraction fails on a never-populated
cache, the snapshot uses the cache's initial contents: minerals=0, gas=0,
supply_used=0, game_time="00:00", but supply_cap=0 — the baseline
supply_cap=200 applies only when the supply image is absent, not when its
extraction fails. -/
theorem c4_extraction_failure_initial_cache (rt st2 tt : String)
    (hr : (extract_numbers rt).length < 2)
    (hs : parse_ratio st2 = none)
    (ht : parse_timer tt = none) :
    get_game_state init_last_known_state (some rt) (some st2) (some tt)
      = ({ minerals := 0, gas := 0, supply_used := 0, supply_cap := 0,
           game_time := "00:00", warnings := [] }, init_last_known_state) := by
  simp [get_game_state, analyze_resources_fail _ _ hr, analyze_supply_fail _ _ hs,
    analyze_game_time_fail _ _ ht, init_last_known_state, detect_supply_block,
    detect_resource_overflow]

theorem c4_witness :
    (extract_numbers "x").length < 2
    ∧ parse_ratio "abc" = none
    ∧ parse_timer "zz" = none
    ∧ get_game_state init_last_known_state (some "x") (some "abc") (some "zz")
      = ({ minerals := 0, gas := 0, supply_used := 0, supply_cap := 0,
           game_time := "00:00", warnings := [] }, init_last_known_state) :=
  ⟨by decide, by decide, by decide,
    c4_extraction_failure_initial_cache "x" "abc" "zz" (by decide) (by decide)
      (by decide)⟩

/-! ## Claim C9 -/

/-- C9: for every input text with fewer than two digit runs, the pair parse
returns absent, `analyze_resources` returns the previously cached minerals
and gas unchanged, and the reading cache itself is left unmodified. -/
theorem c9_pair_parse_failure_preserves_cache (st : OCRState) (text : String)
    (h : (extract_numbers text).length < 2) :
    parse_pair text = none
    ∧ analyze_resources st text = ((st.minerals, st.gas), st) := by
  refine ⟨?_, analyze_resources_fail st text h⟩
  rcases hl : extract_numbers text with _ | ⟨a, _ | ⟨b, l⟩⟩
  · simp [parse_pair, hl]
  · simp [parse_pair, hl]
  · rw [hl] at h
    simp at h
    omega

/-- A populated reading cache used to instantiate the C9 witness. -/
def c9_cache : OCRState :=
  { minerals := 5, gas := 6, supply_used := 7, supply_cap := 8, game_time := "01:00" }

theorem c9_witness :
    (extract_numbers "abc").length < 2
    ∧ (parse_pair "abc" = none
      ∧ analyze_resources c9_cache "abc" = ((5, 6), c9_cache)) :=
  ⟨by decide, c9_pair_parse_failure_preserves_cache c9_cache "abc" (by decide)⟩

/-! ## Claim C10 -/

/-- C10: the commander-tip lookup is insensitive to the prestige argument —
two calls that differ only in prestige return the same tip and produce the
same notification, history and cooldown effects. -/
theorem c10_prestige_independent (e : Engine) (commander_name : String)
    (p1 p2 : Int) (game_phase : String) (now : ℚ) (ts : String)
    (nres : NotifyResult) :
    get_commander_tip e commander_name p1 game_phase now ts nres
      = get_commander_tip e commander_name p2 game_phase now ts nres := rfl

/-! ## Claim C7 -/

lemma c7_ratio_fact : (95 : ℚ) / 100 ≤ ((190 : Nat) : ℚ) / ((200 : Nat) : ℚ) := by
  norm_num

/-- C7: for every supply reading with nonzero cap, the critical advisory path
is taken exactly when used/cap is at least 0.95 (superseding the warning
tier), the warning advisory path exactly when 0.85 <= used/cap < 0.95, and
nothing below 0.85; a zero cap skips the category entirely.  A fresh engine
reading 190/200 yields the critical advisory, not the warning one. -/
theorem c7_supply_tiers (e : Engine) (u c : Nat) (now : ℚ) (ts : String)
    (nres : NotifyResult)
    (hw : e.config.supply_warning_threshold = 85 / 100)
    (hc : e.config.supply_critical_threshold = 95 / 100) :
    (c = 0 →
      check_supply e { supply_used := some u, supply_cap := some c } now ts nres
        = (none, e))
    ∧ (c ≠ 0 → 95 / 100 ≤ (u : ℚ) / (c : ℚ) →
        (check_supply e { supply_used := some u, supply_cap := some c } now ts nres).1
          = (if (can_send_reminder e "supply_critical" now).1 then
              some ("⚠️ SUPPLY BLOCKED! " ++ toString u ++ "/" ++ toString c)
            else none))
    ∧ (c ≠ 0 → 85 / 100 ≤ (u : ℚ) / (c : ℚ) → (u : ℚ) / (c : ℚ) < 95 / 100 →
        (check_supply e { supply_used := some u, supply_cap := some c } now ts nres).1
          = (if (can_send_reminder e "supply_warning" now).1 then
              some ("⚠️ Supply Warning: " ++ toString u ++ "/" ++ toString c)
            else none))
    ∧ (c ≠ 0 → (u : ℚ) / (c : ℚ) < 85 / 100 →
        check_supply e { supply_used := some u, supply_cap := some c } now ts nres
          = (none, e))
    ∧ (∀ now2 : ℚ,
        (check_supply (initEngine true)
            { supply_used := some 190, supply_cap := some 200 } now2 ts nres).1
          = some "⚠️ SUPPLY BLOCKED! 190/200") := by
  have hcrit : ∀ e2 : Engine, e2.config.supply_critical_threshold = 95 / 100 →
      ∀ (u2 c2 : Nat) (now2 : ℚ), c2 ≠ 0 → 95 / 100 ≤ (u2 : ℚ) / (c2 : ℚ) →
      (check_supply e2 { supply_used := some u2, supply_cap := some c2 } now2 ts nres).1
        = (if (can_send_reminder e2 "supply_critical" now2).1 then
            some ("⚠️ SUPPLY BLOCKED! " ++ toString u2 ++ "/" ++ toString c2)
          else none) := by
    intro e2 hc2 u2 c2 now2 hc0 hr
    rcases hcs : can_send_reminder e2 "supply_critical" now2 with ⟨b, e1⟩
    cases b <;> simp [check_supply, hc0, hc2, hr, hcs]
  refine ⟨?_, fun hc0 hr => hcrit e hc u c now hc0 hr, ?_, ?_, ?_⟩
  · intro h0
    subst h0
    simp [check_supply]
  · intro hc0 hr1 hr2
    rcases hcs : can_send_reminder e "supply_warning" now with ⟨b, e1⟩
    cases b <;>
      simp [check_supply, hc0, hc, hw, hr1, hcs, not_le.mpr hr2]
  · intro hc0 hr
    have hr2 : (u : ℚ) / (c : ℚ) < 95 / 100 :=
      lt_trans hr (by norm_num)
    simp [check_supply, hc0, hc, hw, not_le.mpr hr, not_le.mpr hr2]
  · intro now2
    rw [hcrit (initEngine true) rfl 190 200 now2 (by decide) c7_ratio_fact]
    rfl

theorem c7_witness :
    (initEngine true).config.supply_warning_threshold = 85 / 100
    ∧ (initEngine true).config.supply_critical_threshold = 95 / 100
    ∧ (200 : Nat) ≠ 0
    ∧ (check_supply (initEngine true)
        { supply_used := some 190, supply_cap := some 200 } 5 "ts"
        NotifyResult.success).1
      = (if (can_send_reminder (initEngine true) "supply_critical" 5).1 then
          some ("⚠️ SUPPLY BLOCKED! " ++ toString (190 : Nat) ++ "/"
            ++ toString (200 : Nat))
        else none) :=
  ⟨rfl, rfl, by decide,
    (c7_supply_tiers (initEngine true) 190 200 5 "ts" NotifyResult.success rfl
      rfl).2.1 (by decide) c7_ratio_fact⟩

/-! ## Claim C8 -/

/-- C8: below 180 seconds of game time the resource check emits nothing
regardless of resource values; at or past 180 seconds, minerals and gas each
independently fire their own overflow advisory when exceeding 1000, each
gated by its own cooldown key evaluated against the incoming engine state.
Concretely: elapsed=60s with minerals=1500 yields no resource advisory, and
elapsed=200s with minerals=1500 (gas 800) yields exactly the one
mineral-overflow advisory. -/
theorem c8_resource_gate_and_independence (e : Engine) (rd : ResourceData)
    (t : Int) (now : ℚ) (ts : String) (nres : NotifyResult)
    (hth : e.config.resource_overflow_threshold = 1000) :
    (t < 180 → check_resources e rd t now ts nres = ([], e))
    ∧ (180 ≤ t →
        (check_resources e rd t now ts nres).1
          = (if 1000 < rd.minerals.getD 0
                ∧ (can_send_reminder e "mineral_overflow" now).1 then
              ["💎 High minerals: " ++ toString (rd.minerals.getD 0)
                ++ " - Expand or build army!"]
            else [])
            ++ (if 1000 < rd.gas.getD 0
                  ∧ (can_send_reminder e "gas_overflow" now).1 then
              ["⛽ High gas: " ++ toString (rd.gas.getD 0)
                ++ " - Tech up or build advanced units!"]
            else []))
    ∧ (check_resources (initEngine true) { minerals := some 1500, gas := some 800 }
        60 now ts nres = ([], initEngine true))
    ∧ ((check_resources (initEngine true) { minerals := some 1500, gas := some 800 }
        200 now ts nres).1 = ["💎 High minerals: 1500 - Expand or build army!"]) := by
  refine ⟨?_, ?_, rfl, rfl⟩
  · intro h
    simp [check_resources, h]
  · intro ht
    have hnot : ¬ (t < 180) := not_lt.mpr ht
    by_cases hm : 1000 < rd.minerals.getD 0
    · rcases hcs : can_send_reminder e "mineral_overflow" now with ⟨bm, em⟩
      cases bm
      · have hem : em = e := can_send_eq_false hcs
        rw [hem] at hcs
        by_cases hg : 1000 < rd.gas.getD 0
        · rcases hcs2 : can_send_reminder e "gas_overflow" now with ⟨bg, eg⟩
          cases bg <;> simp [check_resources, hth, hnot, hm, hg, hcs, hcs2]
        · simp [check_resources, hth, hnot, hm, hg, hcs]
      · have hem : em = { e with cooldowns := setCooldown e.cooldowns "mineral_overflow" now } :=
          can_send_eq_true hcs
        have hcg : (can_send_reminder
            (send_notification em "Resource Alert"
              ("💎 High minerals: " ++ toString (rd.minerals.getD 0)
                ++ " - Expand or build army!") "normal" nres ts)
            "gas_overflow" now).1
            = (can_send_reminder e "gas_overflow" now).1 := by
          apply can_send_fst_congr
          · rw [send_notification_cooldowns, hem]
            exact lookup_set_other _ _ _ _ (by decide)
          · rw [send_notification_default_cooldown, hem]
        by_cases hg : 1000 < rd.gas.getD 0
        · rcases hcs2 : can_send_reminder
              (send_notification em "Resource Alert"
                ("💎 High minerals: " ++ toString (rd.minerals.getD 0)
                  ++ " - Expand or build army!") "normal" nres ts)
              "gas_overflow" now with ⟨bg, eg⟩
          rw [hcs2] at hcg
          cases bg <;>
            simp [check_resources, hth, hnot, hm, hg, hcs, hcs2, ← hcg]
        · simp [check_resources, hth, hnot, hm, hg, hcs]
    · by_cases hg : 1000 < rd.gas.getD 0
      · rcases hcs2 : can_send_reminder e "gas_overflow" now with ⟨bg, eg⟩
        cases bg <;> simp [check_resources, hth, hnot, hm, hg, hcs2]
      · simp [check_resources, hth, hnot, hm, hg]

theorem c8_witness :
    (initEngine true).config.resource_overflow_threshold = 1000
    ∧ (60 : Int) < 180
    ∧ check_resources (initEngine true)
        { minerals := some 1500, gas := some 800 } 60 3 "ts" NotifyResult.success
      = ([], initEngine true) :=
  ⟨rfl, by decide,
    (c8_resource_gate_and_independence (initEngine true)
      { minerals := some 1500, gas := some 800 } 60 3 "ts" NotifyResult.success
      rfl).1 (by decide)⟩

/-! ## Claim C6 -/

lemma upgradeLoop_msgs (t : Int) (now : ℚ) (ts : String) (nres : NotifyResult) :
    ∀ (l : List (Int × String)) (e : Engine),
    (upgradeLoop t now ts nres e l).1
      = (match l.find? (fun p => decide (p.1 ≤ t)
            && (can_send_reminder e ("upgrade_" ++ toString p.1) now).1) with
        | some p => [p.2]
        | none => []) := by
  intro l
  induction l with
  | nil => intro e; simp [upgradeLoop]
  | cons hd tl ih =>
    intro e
    obtain ⟨timing, message⟩ := hd
    by_cases hts : timing ≤ t
    · rcases hcs : can_send_reminder e ("upgrade_" ++ toString timing) now with ⟨b, e1⟩
      cases b
      · have he1 : e1 = e := can_send_eq_false hcs
        rw [he1] at hcs
        simp [upgradeLoop, List.find?, hts, hcs, ih]
      · simp [upgradeLoop, List.find?, hts, hcs]
    · simp [upgradeLoop, List.find?, hts, ih]

/-- The engine exhibiting the C6 counterexample: the `upgrade_300` key fired
at time 100 and is still cooling down at time 110. -/
def c6_blocked_engine : Engine :=
  { initEngine true with cooldowns := [("upgrade_300", 100)] }

/-- C6 counterexample: at elapsed=500s with the 300s threshold's cooldown key
still cooling down (fired at time 100, checked at time 110) and the 480s key
never fired, the scan does NOT stop at the blocked 300s threshold: it fires
the 480s advisory, contradicting the claim that an earlier, not-yet-cooled-down
threshold blocks later thresholds from firing the same cycle. -/
theorem c6_counterexample :
    ((check_upgrade_timing c6_blocked_engine 500 [] 110 "ts"
        NotifyResult.success).1 = ["Time for +2 upgrades if +1 is done"])
    ∧ (["Time for +2 upgrades if +1 is done"] : List String) ≠ [] := by
  constructor
  · have h300 : can_send_reminder c6_blocked_engine "upgrade_300" 110
        = (false, c6_blocked_engine) := by
      show (if (110 : ℚ) - 100 < c6_blocked_engine.default_cooldown
          then ((false : Bool), c6_blocked_engine)
          else (true, { c6_blocked_engine with
            cooldowns := setCooldown c6_blocked_engine.cooldowns "upgrade_300" 110 }))
        = (false, c6_blocked_engine)
      rw [if_pos (show (110 : ℚ) - 100 < c6_blocked_engine.default_cooldown by
        norm_num [c6_blocked_engine, initEngine])]
    have h480 : can_send_reminder c6_blocked_engine "upgrade_480" 110
        = (true, { c6_blocked_engine with
            cooldowns := setCooldown c6_blocked_engine.cooldowns "upgrade_480" 110 }) :=
      rfl
    have hk3 : ("upgrade_" ++ toString (300 : Int)) = "upgrade_300" := rfl
    have hk4 : ("upgrade_" ++ toString (480 : Int)) = "upgrade_480" := rfl
    simp [check_upgrade_timing, upgrade_timings, upgradeLoop, hk3, hk4, h300, h480]
  · decide

/-- C6 (amended): on every cycle the upgrade category scans its threshold
table (300s, 480s, 720s) in ascending order and fires at most one advisory —
the first threshold whose time has passed AND whose cooldown key permits —
then stops scanning; a time-eligible threshold whose key is still cooling
down does not block later thresholds: the scan continues past it.  At
elapsed=500s with no threshold yet cooled down, exactly the 300s-threshold
advisory fires. -/
theorem c6_upgrade_scan (e : Engine) (t : Int) (cu : List (String × Nat))
    (now : ℚ) (ts : String) (nres : NotifyResult) :
    ((check_upgrade_timing e t cu now ts nres).1.length ≤ 1)
    ∧ ((check_upgrade_timing e t cu now ts nres).1
        = (match upgrade_timings.find? (fun p => decide (p.1 ≤ t)
              && (can_send_reminder e ("upgrade_" ++ toString p.1) now).1) with
          | some p => [p.2]
          | none => []))
    ∧ ((check_upgrade_timing (initEngine true) 500 cu now ts nres).1
        = ["Consider starting +1 attack/armor upgrades"]) := by
  have hchar : (check_upgrade_timing e t cu now ts nres).1
      = (match upgrade_timings.find? (fun p => decide (p.1 ≤ t)
            && (can_send_reminder e ("upgrade_" ++ toString p.1) now).1) with
        | some p => [p.2]
        | none => []) :=
    upgradeLoop_msgs t now ts nres upgrade_timings e
  refine ⟨?_, hchar, rfl⟩
  rw [hchar]
  rcases hf : upgrade_timings.find? (fun p => decide (p.1 ≤ t)
      && (can_send_reminder e ("upgrade_" ++ toString p.1) now).1) with _ | p <;>
    simp [hf]

/-! ## Claim C5 -/

lemma can_send_of_lookup_blocked {e : Engine} {key : String} {now tp : ℚ}
    (hlk : lookupCooldown e.cooldowns key = some tp)
    (hx : now - tp < e.default_cooldown) :
    can_send_reminder e key now = (false, e) := by
  unfold can_send_reminder
  rw [hlk]
  show (if now - tp < e.default_cooldown then ((false : Bool), e)
      else (true, { e with cooldowns := setCooldown e.cooldowns key now }))
    = (false, e)
  rw [if_pos hx]

lemma can_send_of_lookup_free {e : Engine} {key : String} {now tp : ℚ}
    (hlk : lookupCooldown e.cooldowns key = some tp)
    (hx : ¬ (now - tp < e.default_cooldown)) :
    can_send_reminder e key now
      = (true, { e with cooldowns := setCooldown e.cooldowns key now }) := by
  unfold can_send_reminder
  rw [hlk]
  show (if now - tp < e.default_cooldown then ((false : Bool), e)
      else (true, { e with cooldowns := setCooldown e.cooldowns key now }))
    = (true, { e with cooldowns := setCooldown e.cooldowns key now })
  rw [if_neg hx]

lemma attempt_fire_blocked (e : Engine) (key title message urgency : String)
    (now : ℚ) (ts : String) (nres : NotifyResult) (tp : ℚ)
    (hlk : lookupCooldown e.cooldowns key = some tp)
    (hx : now - tp < e.default_cooldown) :
    attempt_fire e key title message urgency now ts nres = e := by
  unfold attempt_fire
  rw [can_send_of_lookup_blocked hlk hx]

lemma run_attempts_blocked (key title message urgency ts : String)
    (nres : NotifyResult) (tp : ℚ) :
    ∀ (l : List ℚ) (e : Engine),
    lookupCooldown e.cooldowns key = some tp →
    (∀ x ∈ l, x - tp < e.default_cooldown) →
    run_attempts key title message urgency ts nres e l = e := by
  intro l
  induction l with
  | nil => intro e _ _; rfl
  | cons x rest ih =>
    intro e hlk hl
    have hx : x - tp < e.default_cooldown := hl x (by simp)
    have hb := attempt_fire_blocked e key title message urgency x ts nres tp hlk hx
    show run_attempts key title message urgency ts nres
        (attempt_fire e key title message urgency x ts nres) rest = e
    rw [hb]
    exact ih e hlk (fun y hy => hl y (by simp [hy]))

/-- C5: once an advisory of a given key fires at time t0 (appending exactly
one history record), every further firing attempt of the same key strictly
within the 30-second default cooldown window is silent — it changes neither
the history nor the cooldown table — while an attempt made once the window
has elapsed (t1 - t0 >= 30) fires again and yields a second history entry. -/
theorem c5_cooldown_window (e : Engine) (key title message urgency ts : String)
    (nres : NotifyResult) (t0 t1 : ℚ) (l : List ℚ)
    (hfire : (can_send_reminder e key t0).1 = true)
    (hdc : e.default_cooldown = 30)
    (hen : e.enable_notifications = true)
    (hl : ∀ x ∈ l, x - t0 < 30)
    (ht1 : 30 ≤ t1 - t0) :
    ((attempt_fire e key title message urgency t0 ts nres).reminder_history.length
        = e.reminder_history.length + 1)
    ∧ (run_attempts key title message urgency ts nres
          (attempt_fire e key title message urgency t0 ts nres) l
        = attempt_fire e key title message urgency t0 ts nres)
    ∧ ((attempt_fire (attempt_fire e key title message urgency t0 ts nres)
          key title message urgency t1 ts nres).reminder_history.length
        = e.reminder_history.length + 2) := by
  rcases hcs : can_send_reminder e key t0 with ⟨b, e1⟩
  rw [hcs] at hfire
  simp at hfire
  subst hfire
  have he1 : e1 = { e with cooldowns := setCooldown e.cooldowns key t0 } :=
    can_send_eq_true hcs
  have hA : attempt_fire e key title message urgency t0 ts nres
      = send_notification e1 title message urgency nres ts := by
    unfold attempt_fire
    rw [hcs]
  set F := send_notification e1 title message urgency nres ts with hF
  have hFc : F.cooldowns = setCooldown e.cooldowns key t0 := by
    rw [hF, send_notification_cooldowns, he1]
  have hFlk : lookupCooldown F.cooldowns key = some t0 := by
    rw [hFc]
    exact lookup_set_self _ _ _
  have hFdc : F.default_cooldown = 30 := by
    rw [hF, send_notification_default_cooldown, he1]
    exact hdc
  have hFen : F.enable_notifications = true := by
    rw [hF, send_notification_enable, he1]
    exact hen
  have hFhist : F.reminder_history
      = e.reminder_history
        ++ [{ timestamp := ts, type := title, message := message,
              urgency := urgency }] := by
    rw [hF, send_notification_enabled_history e1 _ _ _ _ _ (by rw [he1]; exact hen),
      he1]
  refine ⟨?_, ?_, ?_⟩
  · rw [hA, hFhist]
    simp
  · rw [hA]
    exact run_attempts_blocked key title message urgency ts nres t0 l F hFlk
      (fun x hx => by rw [hFdc]; exact hl x hx)
  · rw [hA]
    have hcs2 : can_send_reminder F key t1
        = (true, { F with cooldowns := setCooldown F.cooldowns key t1 }) :=
      can_send_of_lookup_free hFlk (by rw [hFdc]; exact not_lt.mpr ht1)
    have hA2 : attempt_fire F key title message urgency t1 ts nres
        = send_notification { F with cooldowns := setCooldown F.cooldowns key t1 }
            title message urgency nres ts := by
      unfold attempt_fire
      rw [hcs2]
    rw [hA2, send_notification_enabled_history _ _ _ _ _ _ (by simpa using hFen)]
    simp [hFhist]

lemma c5_window_fact : ∀ x ∈ ([10, 29] : List ℚ), x - 0 < 30 := by
  intro x hx
  fin_cases hx <;> norm_num

lemma c5_after_fact : (30 : ℚ) ≤ 30 - 0 := by norm_num

theorem c5_witness :
    ((can_send_reminder (initEngine true) "supply_critical" 0).1 = true)
    ∧ ((attempt_fire (initEngine true) "supply_critical" "T" "M" "critical" 0 "ts"
          NotifyResult.success).reminder_history.length
        = (initEngine true).reminder_history.length + 1)
    ∧ (run_attempts "supply_critical" "T" "M" "critical" "ts" NotifyResult.success
          (attempt_fire (initEngine true) "supply_critical" "T" "M" "critical" 0 "ts"
            NotifyResult.success) [10, 29]
        = attempt_fire (initEngine true) "supply_critical" "T" "M" "critical" 0 "ts"
            NotifyResult.success)
    ∧ ((attempt_fire (attempt_fire (initEngine true) "supply_critical" "T" "M"
          "critical" 0 "ts" NotifyResult.success) "supply_critical" "T" "M" "critical"
          30 "ts" NotifyResult.success).reminder_history.length
        = (initEngine true).reminder_history.length + 2) :=
  ⟨rfl,
    (c5_cooldown_window (initEngine true) "supply_critical" "T" "M" "critical" "ts"
      NotifyResult.success 0 30 [10, 29] rfl rfl rfl c5_window_fact c5_after_fact).1,
    (c5_cooldown_window (initEngine true) "supply_critical" "T" "M" "critical" "ts"
      NotifyResult.success 0 30 [10, 29] rfl rfl rfl c5_window_fact c5_after_fact).2.1,
    (c5_cooldown_window (initEngine true) "supply_critical" "T" "M" "critical" "ts"
      NotifyResult.success 0 30 [10, 29] rfl rfl rfl c5_window_fact c5_after_fact).2.2⟩

/-! ## Claim C2 -/

lemma amon_char (e : Engine) (t : Int) (now : ℚ) (ts : String) (nres : NotifyResult) :
    ((amonLoop t now ts nres e 0 [240, 480, 720, 960]).1).map WaveInfo.wave_number
      = (if 0 < 240 - t ∧ 240 - t ≤ 30 then
          (if (can_send_reminder e "amon_wave_0" now).1 then some 1 else none)
        else if 0 < 480 - t ∧ 480 - t ≤ 30 then
          (if (can_send_reminder e "amon_wave_1" now).1 then some 2 else none)
        else if 0 < 720 - t ∧ 720 - t ≤ 30 then
          (if (can_send_reminder e "amon_wave_2" now).1 then some 3 else none)
        else if 0 < 960 - t ∧ 960 - t ≤ 30 then
          (if (can_send_reminder e "amon_wave_3" now).1 then some 4 else none)
        else none) := by
  have k0 : ("amon_wave_" ++ toString (0 : Nat)) = "amon_wave_0" := rfl
  have k1 : ("amon_wave_" ++ toString (1 : Nat)) = "amon_wave_1" := rfl
  have k2 : ("amon_wave_" ++ toString (2 : Nat)) = "amon_wave_2" := rfl
  have k3 : ("amon_wave_" ++ toString (3 : Nat)) = "amon_wave_3" := rfl
  by_cases h0 : (0 : Int) < 240 - t ∧ 240 - t ≤ 30
  · have h0n : t < 240 ∧ (240 : Int) ≤ 30 + t := by omega
    rcases hcs : can_send_reminder e "amon_wave_0" now with ⟨b, e1⟩
    cases b
    · have he : e1 = e := can_send_eq_false hcs
      rw [he] at hcs
      have h1 : ¬ ((0 : Int) < 480 - t ∧ 480 - t ≤ 30) := by omega
      have h1n : ¬ (t < 480 ∧ (480 : Int) ≤ 30 + t) := by omega
      have h2 : ¬ ((0 : Int) < 720 - t ∧ 720 - t ≤ 30) := by omega
      have h2n : ¬ (t < 720 ∧ (720 : Int) ≤ 30 + t) := by omega
      have h3 : ¬ ((0 : Int) < 960 - t ∧ 960 - t ≤ 30) := by omega
      have h3n : ¬ (t < 960 ∧ (960 : Int) ≤ 30 + t) := by omega
      simp [amonLoop, h0, h0n, h1, h1n, h2, h2n, h3, h3n, k0, hcs]
    · simp [amonLoop, h0, h0n, k0, hcs]
  · have h0n : ¬ (t < 240 ∧ (240 : Int) ≤ 30 + t) := by omega
    by_cases h1 : (0 : Int) < 480 - t ∧ 480 - t ≤ 30
    · have h1n : t < 480 ∧ (480 : Int) ≤ 30 + t := by omega
      rcases hcs : can_send_reminder e "amon_wave_1" now with ⟨b, e1⟩
      cases b
      · have he : e1 = e := can_send_eq_false hcs
        rw [he] at hcs
        have h2 : ¬ ((0 : Int) < 720 - t ∧ 720 - t ≤ 30) := by omega
        have h2n : ¬ (t < 720 ∧ (720 : Int) ≤ 30 + t) := by omega
        have h3 : ¬ ((0 : Int) < 960 - t ∧ 960 - t ≤ 30) := by omega
        have h3n : ¬ (t < 960 ∧ (960 : Int) ≤ 30 + t) := by omega
        simp [amonLoop, h0, h0n, h1, h1n, h2, h2n, h3, h3n, k0, k1, hcs]
      · simp [amonLoop, h0, h0n, h1, h1n, k0, k1, hcs]
    · have h1n : ¬ (t < 480 ∧ (480 : Int) ≤ 30 + t) := by omega
      by_cases h2 : (0 : Int) < 720 - t ∧ 720 - t ≤ 30
      · have h2n : t < 720 ∧ (720 : Int) ≤ 30 + t := by omega
        rcases hcs : can_send_reminder e "amon_wave_2" now with ⟨b, e1⟩
        cases b
        · have he : e1 = e := can_send_eq_false hcs
          rw [he] at hcs
          have h3 : ¬ ((0 : Int) < 960 - t ∧ 960 - t ≤ 30) := by omega
          have h3n : ¬ (t < 960 ∧ (960 : Int) ≤ 30 + t) := by omega
          simp [amonLoop, h0, h0n, h1, h1n, h2, h2n, h3, h3n, k0, k1, k2, hcs]
        · simp [amonLoop, h0, h0n, h1, h1n, h2, h2n, k0, k1, k2, hcs]
      · have h2n : ¬ (t < 720 ∧ (720 : Int) ≤ 30 + t) := by omega
        by_cases h3 : (0 : Int) < 960 - t ∧ 960 - t ≤ 30
        · have h3n : t < 960 ∧ (960 : Int) ≤ 30 + t := by omega
          rcases hcs : can_send_reminder e "amon_wave_3" now with ⟨b, e1⟩
          cases b
          · have he : e1 = e := can_send_eq_false hcs
            rw [he] at hcs
            simp [amonLoop, h0, h0n, h1, h1n, h2, h2n, h3, h3n, k0, k1, k2, k3, hcs]
          · simp [amonLoop, h0, h0n, h1, h1n, h2, h2n, h3, h3n, k0, k1, k2, k3, hcs]
        · have h3n : ¬ (t < 960 ∧ (960 : Int) ≤ 30 + t) := by omega
          simp [amonLoop, h0, h0n, h1, h1n, h2, h2n, h3, h3n, k0, k1, k2, k3]

/-- C2 counterexample: at elapsed t=210 the first wave (arrival 240) is
exactly 30 seconds away; the code fires the warning for wave 1 (its window
bound is inclusive, `<= 30`), while the claim's strict condition
`0 < wave_time - t < 30` says no warning may fire there. -/
theorem c2_counterexample :
    (((check_amon_attack_wave (initEngine true) 210 "standard" 7 "ts"
        NotifyResult.success).1).map WaveInfo.wave_number = some 1)
    ∧ ¬ ((0 : Int) < 240 - 210 ∧ 240 - 210 < 30) :=
  ⟨by decide, by decide⟩

/-- C2 (amended): for an engine carrying the default wave table
[240, 480, 720, 960], the attack-wave check fires the warning for wave i
(reporting wave_number i+1) exactly when 0 < wave_time[i] - t <= 30 — an
inclusive 30-second bound, not the claim's strict `< 30` — and the per-wave
cooldown key amon_wave_i permits it; in any non-cooperative mode
process_game_state does not invoke the check and the attacks category is
empty. -/
theorem c2_amon_wave_window (en : Bool) (hist : List HistoryEntry)
    (cds : List (String × ℚ)) (dc : ℚ) (t : Int) (now : ℚ) (ts : String)
    (nres : NotifyResult) (gs : GameStateInput) :
    (((check_amon_attack_wave ⟨en, hist, cds, dc, default_config⟩ t "standard"
        now ts nres).1).map WaveInfo.wave_number = some 1
      ↔ ((0 < 240 - t ∧ 240 - t ≤ 30)
          ∧ (can_send_reminder ⟨en, hist, cds, dc, default_config⟩
              "amon_wave_0" now).1 = true))
    ∧ (((check_amon_attack_wave ⟨en, hist, cds, dc, default_config⟩ t "standard"
        now ts nres).1).map WaveInfo.wave_number = some 2
      ↔ ((0 < 480 - t ∧ 480 - t ≤ 30)
          ∧ (can_send_reminder ⟨en, hist, cds, dc, default_config⟩
              "amon_wave_1" now).1 = true))
    ∧ (((check_amon_attack_wave ⟨en, hist, cds, dc, default_config⟩ t "standard"
        now ts nres).1).map WaveInfo.wave_number = some 3
      ↔ ((0 < 720 - t ∧ 720 - t ≤ 30)
          ∧ (can_send_reminder ⟨en, hist, cds, dc, default_config⟩
              "amon_wave_2" now).1 = true))
    ∧ (((check_amon_attack_wave ⟨en, hist, cds, dc, default_config⟩ t "standard"
        now ts nres).1).map WaveInfo.wave_number = some 4
      ↔ ((0 < 960 - t ∧ 960 - t ≤ 30)
          ∧ (can_send_reminder ⟨en, hist, cds, dc, default_config⟩
              "amon_wave_3" now).1 = true))
    ∧ (gs.mode = some "coop"
        ∨ (process_game_state ⟨en, hist, cds, dc, default_config⟩ gs now ts
            nres).1.attacks = []) := by
  have hee : check_amon_attack_wave ⟨en, hist, cds, dc, default_config⟩ t
      "standard" now ts nres
      = amonLoop t now ts nres ⟨en, hist, cds, dc, default_config⟩ 0
          [240, 480, 720, 960] := rfl
  have hchar := amon_char ⟨en, hist, cds, dc, default_config⟩ t now ts nres
  refine ⟨?_, ?_, ?_, ?_, ?_⟩
  · rw [hee, hchar]
    clear hchar hee
    split_ifs <;> simp_all
  · rw [hee, hchar]
    clear hchar hee
    split_ifs <;> simp_all <;> omega
  · rw [hee, hchar]
    clear hchar hee
    split_ifs <;> simp_all <;> omega
  · rw [hee, hchar]
    clear hchar hee
    split_ifs <;> simp_all <;> omega
  · by_cases hm : gs.mode = some "coop"
    · exact Or.inl hm
    · exact Or.inr (by simp [process_game_state, hm])
